import Mathlib

/-!
Verification of the Auth component (src/src/components/Auth/Auth.js).

The component is embedded as pure Lean functions over an explicit
application state.  External collaborators (the identity provider, the
global store, local storage and the router) are modelled as data: the
provider's outcomes are inputs to the handlers, and the store, storage
and navigation history are fields of the state record.
-/

namespace Auth

/-- A character counts for the regex class \S exactly when it is not
whitespace (JavaScript's \S; modelled with Char.isWhitespace). -/
def isNonSpace (c : Char) : Bool := !c.isWhitespace

/-- Matches the final \S+ of the pattern: at least one non-space
character must start the remaining input. -/
def matchTail : List Char → Bool
  | [] => false
  | c :: _ => isNonSpace c

/-- Matches \.\S+ : a literal dot followed by the final \S+. -/
def matchDotPart : List Char → Bool
  | [] => false
  | c :: cs => c == '.' && matchTail cs

/-- Matches \S+\.\S+ by backtracking over the length of the first \S+. -/
def matchB : List Char → Bool
  | [] => false
  | c :: cs => isNonSpace c && (matchDotPart cs || matchB cs)

/-- Matches @\S+\.\S+ : a literal at-sign followed by matchB. -/
def matchAtPart : List Char → Bool
  | [] => false
  | c :: cs => c == '@' && matchB cs

/-- Matches \S+@\S+\.\S+ anchored at the start of the input, by
backtracking over the length of the first \S+. -/
def matchA : List Char → Bool
  | [] => false
  | c :: cs => isNonSpace c && (matchAtPart cs || matchA cs)

/-- The unanchored regex test /\S+@\S+\.\S+/.test, searching for a match
starting at every position. -/
def testPattern : List Char → Bool
  | [] => false
  | c :: cs => matchA (c :: cs) || testPattern cs

/-- The component's email regex test on a string. -/
def emailRegexTest (s : String) : Bool := testPattern s.data

/-- Every character of the list is non-space. -/
def AllNonSpace (l : List Char) : Prop := ∀ c ∈ l, isNonSpace c = true

/-- Declarative reading of the pattern \S+@\S+\.\S+ matched anywhere in
the string: some substring decomposes as a non-empty non-space block, an
at-sign, a non-empty non-space block, a dot, and a non-empty non-space
block. -/
def EmailLike (s : String) : Prop :=
  ∃ pre a b c suf,
    s.data = pre ++ a ++ '@' :: (b ++ '.' :: (c ++ suf)) ∧
    a ≠ [] ∧ b ≠ [] ∧ c ≠ [] ∧
    AllNonSpace a ∧ AllNonSpace b ∧ AllNonSpace c

/-- Local form state: the three controlled inputs. -/
structure FormFields where
  name : String
  email : String
  password : String
deriving Repr, DecidableEq

/-- The error object built by validateForm; a missing key is none. -/
structure FormErrors where
  email : Option String
  password : Option String
  name : Option String
deriving Repr, DecidableEq

/-- Object.keys(errors).length === 0 : no key was assigned. -/
def FormErrors.isEmpty (e : FormErrors) : Bool :=
  e.email.isNone && e.password.isNone && e.name.isNone

/-- The error object computed by validateForm from the current mode flag
and form data (Auth.js lines 50-66). -/
def validateFormErrors (isLogin : Bool) (authData : FormFields) : FormErrors :=
  { email :=
      if authData.email = "" then some "Email is required."
      else if !emailRegexTest authData.email then some "Email is invalid."
      else none
    password :=
      if authData.password = "" then some "Password is required."
      else if authData.password.length < 6 then
        some "Password must be at least 6 characters."
      else none
    name :=
      if !isLogin && authData.name = "" then
        some "Full name is required for signup."
      else none }

/-- The user object inside the provider's sign-in response. -/
structure SignInUser where
  accessToken : String
deriving Repr, DecidableEq

/-- The provider's response to signInUserEmailAndPass. -/
structure SignInResponse where
  user : SignInUser
deriving Repr, DecidableEq

/-- The result of signInWithGoogle. -/
structure GoogleResult where
  token : String
deriving Repr, DecidableEq

/-- Modelled from the spec: the external identity provider (the thin
wrapper src/src/firebase/auth.js is not under src/).  Each operation is
asynchronous and fallible; its outcome is supplied as data, an error
value standing for a thrown exception. -/
structure Provider where
  signInUserEmailAndPass : String → String → Except String SignInResponse
  createUserEmailAndPass : String → String → Except String Unit
  signInWithGoogle : Except String GoogleResult
  signOutUser : Except String Unit

/-- The observable application state: the global store (mode flag,
token, login-status refresh count), the persistent local-storage entry
for the idToken key, the navigation history, the component's stored
form errors, and instrumentation counters recording how often each
external operation was invoked. -/
structure AppState where
  isLogin : Bool
  storeIdToken : Option String
  loginStatusCount : Nat
  storageIdToken : Option String
  navigations : List String
  formErrors : FormErrors
  preventDefaultCalls : Nat
  signInCalls : Nat
  createUserCalls : Nat
  googleSignInCalls : Nat
  signOutCalls : Nat
deriving Repr, DecidableEq

/-- Modelled from the spec: the global-store reducer for setIdToken
(src/src/store/authSlice is not under src/); it publishes the given
token, or null, to the store. -/
def dispatchSetIdToken (t : Option String) (s : AppState) : AppState :=
  { s with storeIdToken := t }

/-- Modelled from the spec: the global-store reducer for setLoginStatus
(src/src/store/authSlice is not under src/); refreshing the login
status is modelled as bumping a refresh counter. -/
def dispatchSetLoginStatus (s : AppState) : AppState :=
  { s with loginStatusCount := s.loginStatusCount + 1 }

/-- Modelled from the spec: the global-store reducer for setIsLogin
(src/src/store/authSlice is not under src/); it sets the mode flag. -/
def dispatchSetIsLogin (b : Bool) (s : AppState) : AppState :=
  { s with isLogin := b }

/-- Modelled from the spec: localStorage.setItem for the idToken key. -/
def storageSetIdToken (t : String) (s : AppState) : AppState :=
  { s with storageIdToken := some t }

/-- Modelled from the spec: localStorage.removeItem for the idToken key. -/
def storageRemoveIdToken (s : AppState) : AppState :=
  { s with storageIdToken := none }

/-- Modelled from the spec: the router's programmatic navigation;
modelled as appending the target path to the navigation history. -/
def navigate (path : String) (s : AppState) : AppState :=
  { s with navigations := s.navigations ++ [path] }

/-- loginHandler (Auth.js lines 29-40): awaits provider sign-in; on
success stores the access token in local storage, publishes it and a
refreshed status to the store, and navigates to /home.  The second
component is the exception propagated to the caller, if any. -/
def loginHandler (prov : Provider) (email password : String)
    (s : AppState) : AppState × Option String :=
  let s1 := { s with signInCalls := s.signInCalls + 1 }
  match prov.signInUserEmailAndPass email password with
  | .error e => (s1, some e)
  | .ok response =>
    let token := response.user.accessToken
    (navigate "/home"
      (dispatchSetLoginStatus
        (dispatchSetIdToken (some token) (storageSetIdToken token s1))),
     none)

/-- validateForm (Auth.js lines 49-70): computes the error object,
stores it via setFormErrors, and returns whether it is empty. -/
def validateForm (authData : FormFields) (s : AppState) :
    AppState × Bool :=
  let errors := validateFormErrors s.isLogin authData
  ({ s with formErrors := errors }, errors.isEmpty)

/-- handleSubmit (Auth.js lines 73-95): prevents the default submit,
validates (aborting when invalid), then branches on the mode flag:
login calls loginHandler, signup creates the account and then calls
loginHandler.  On overall success it dispatches setIsLogin(true); a
thrown error is caught and only logged. -/
def handleSubmit (prov : Provider) (authData : FormFields)
    (s : AppState) : AppState :=
  let s0 := { s with preventDefaultCalls := s.preventDefaultCalls + 1 }
  let v := validateForm authData s0
  if v.2 = false then v.1
  else
    let res :=
      if v.1.isLogin then
        loginHandler prov authData.email authData.password v.1
      else
        let s1 := { v.1 with createUserCalls := v.1.createUserCalls + 1 }
        match prov.createUserEmailAndPass authData.email authData.password with
        | .error e => (s1, some e)
        | .ok _ => loginHandler prov authData.email authData.password s1
    match res.2 with
    | some _ => res.1
    | none => dispatchSetIsLogin true res.1

/-- toggleAuthMode (Auth.js lines 98-100): dispatches setIsLogin with
the negation of the current mode flag. -/
def toggleAuthMode (s : AppState) : AppState :=
  dispatchSetIsLogin (!s.isLogin) s

/-- loginWithGoogleHandler (Auth.js lines 103-115): awaits the Google
sign-in; on success stores the token and publishes it and a refreshed
status.  Errors are caught and only logged. -/
def loginWithGoogleHandler (prov : Provider) (s : AppState) : AppState :=
  let s1 := { s with googleSignInCalls := s.googleSignInCalls + 1 }
  match prov.signInWithGoogle with
  | .error _ => s1
  | .ok result =>
    let token := result.token
    dispatchSetLoginStatus
      (dispatchSetIdToken (some token) (storageSetIdToken token s1))

/-- handleSignOut (Auth.js lines 118-127): awaits provider sign-out; on
success removes the stored token, publishes a null token and a
refreshed status.  Errors are caught and only logged. -/
def handleSignOut (prov : Provider) (s : AppState) : AppState :=
  let s1 := { s with signOutCalls := s.signOutCalls + 1 }
  match prov.signOutUser with
  | .error _ => s1
  | .ok _ =>
    dispatchSetLoginStatus
      (dispatchSetIdToken none (storageRemoveIdToken s1))

/-- A provider whose every call succeeds, the sign-ins yielding the
token t; used to instantiate universally quantified results. -/
def okProvider (t : String) : Provider :=
  { signInUserEmailAndPass := fun _ _ => .ok ⟨⟨t⟩⟩
    createUserEmailAndPass := fun _ _ => .ok ()
    signInWithGoogle := .ok ⟨t⟩
    signOutUser := .ok () }

/-- A provider whose every call throws. -/
def errProvider : Provider :=
  { signInUserEmailAndPass := fun _ _ => .error "auth/error"
    createUserEmailAndPass := fun _ _ => .error "auth/error"
    signInWithGoogle := .error "auth/error"
    signOutUser := .error "auth/error" }

/-- A state with an empty error object, login mode, no token anywhere. -/
def initialState : AppState :=
  { isLogin := true
    storeIdToken := none
    loginStatusCount := 0
    storageIdToken := none
    navigations := []
    formErrors := { email := none, password := none, name := none }
    preventDefaultCalls := 0
    signInCalls := 0
    createUserCalls := 0
    googleSignInCalls := 0
    signOutCalls := 0 }

/-! Characterization of the backtracking matcher against the
declarative reading of the regex. -/

theorem matchTail_iff (l : List Char) :
    matchTail l = true ↔ ∃ a rest, l = a ++ rest ∧ a ≠ [] ∧ AllNonSpace a := by
  constructor
  · intro h
    match l, h with
    | ch :: cs, h =>
      refine ⟨[ch], cs, rfl, by simp, ?_⟩
      intro x hx
      simp only [List.mem_singleton] at hx
      subst hx
      simpa [matchTail] using h
  · rintro ⟨a, rest, hl, hne, hall⟩
    match a, hne with
    | ch :: a2, _ =>
      subst hl
      simpa [matchTail] using hall ch (by simp)

theorem matchDotPart_iff (l : List Char) :
    matchDotPart l = true ↔ ∃ rest, l = '.' :: rest ∧ matchTail rest = true := by
  cases l with
  | nil => simp [matchDotPart]
  | cons ch cs =>
    simp only [matchDotPart, Bool.and_eq_true, beq_iff_eq, List.cons.injEq]
    constructor
    · rintro ⟨h1, h2⟩
      exact ⟨cs, ⟨h1, rfl⟩, h2⟩
    · rintro ⟨rest, ⟨h1, h2⟩, h3⟩
      subst h2
      exact ⟨h1, h3⟩

theorem matchB_iff (l : List Char) :
    matchB l = true ↔
      ∃ b rest, l = b ++ '.' :: rest ∧ b ≠ [] ∧ AllNonSpace b ∧
        matchTail rest = true := by
  induction l with
  | nil =>
    constructor
    · intro h
      simp [matchB] at h
    · rintro ⟨b, rest, hl, -, -, -⟩
      exact absurd hl.symm (by simp)
  | cons ch cs ih =>
    constructor
    · intro h
      simp only [matchB, Bool.and_eq_true, Bool.or_eq_true] at h
      obtain ⟨hns, hor⟩ := h
      cases hor with
      | inl hdot =>
        obtain ⟨rest, hcs, htail⟩ := (matchDotPart_iff cs).mp hdot
        subst hcs
        refine ⟨[ch], rest, rfl, by simp, ?_, htail⟩
        intro x hx
        simp only [List.mem_singleton] at hx
        subst hx
        exact hns
      | inr hb =>
        obtain ⟨b, rest, hcs, hbne, hball, htail⟩ := ih.mp hb
        subst hcs
        refine ⟨ch :: b, rest, rfl, by simp, ?_, htail⟩
        intro x hx
        simp only [List.mem_cons] at hx
        cases hx with
        | inl hx => subst hx; exact hns
        | inr hx => exact hball x hx
    · rintro ⟨b, rest, hl, hbne, hball, htail⟩
      match b, hbne with
      | hb :: tb, _ =>
        simp only [List.cons_append, List.cons.injEq] at hl
        obtain ⟨hch, hcs⟩ := hl
        subst hch
        subst hcs
        simp only [matchB, Bool.and_eq_true, Bool.or_eq_true]
        refine ⟨hball ch (by simp), ?_⟩
        cases tb with
        | nil =>
          left
          exact (matchDotPart_iff _).mpr ⟨rest, rfl, htail⟩
        | cons hb2 tb2 =>
          right
          refine ih.mpr ⟨hb2 :: tb2, rest, rfl, by simp, ?_, htail⟩
          intro x hx
          exact hball x (List.mem_cons_of_mem ch hx)

theorem matchAtPart_iff (l : List Char) :
    matchAtPart l = true ↔ ∃ rest, l = '@' :: rest ∧ matchB rest = true := by
  cases l with
  | nil => simp [matchAtPart]
  | cons ch cs =>
    simp only [matchAtPart, Bool.and_eq_true, beq_iff_eq, List.cons.injEq]
    constructor
    · rintro ⟨h1, h2⟩
      exact ⟨cs, ⟨h1, rfl⟩, h2⟩
    · rintro ⟨rest, ⟨h1, h2⟩, h3⟩
      subst h2
      exact ⟨h1, h3⟩

theorem matchA_iff (l : List Char) :
    matchA l = true ↔
      ∃ a rest, l = a ++ '@' :: rest ∧ a ≠ [] ∧ AllNonSpace a ∧
        matchB rest = true := by
  induction l with
  | nil =>
    constructor
    · intro h
      simp [matchA] at h
    · rintro ⟨a, rest, hl, -, -, -⟩
      exact absurd hl.symm (by simp)
  | cons ch cs ih =>
    constructor
    · intro h
      simp only [matchA, Bool.and_eq_true, Bool.or_eq_true] at h
      obtain ⟨hns, hor⟩ := h
      cases hor with
      | inl hat =>
        obtain ⟨rest, hcs, hb⟩ := (matchAtPart_iff cs).mp hat
        subst hcs
        refine ⟨[ch], rest, rfl, by simp, ?_, hb⟩
        intro x hx
        simp only [List.mem_singleton] at hx
        subst hx
        exact hns
      | inr ha =>
        obtain ⟨a, rest, hcs, hane, haall, hb⟩ := ih.mp ha
        subst hcs
        refine ⟨ch :: a, rest, rfl, by simp, ?_, hb⟩
        intro x hx
        simp only [List.mem_cons] at hx
        cases hx with
        | inl hx => subst hx; exact hns
        | inr hx => exact haall x hx
    · rintro ⟨a, rest, hl, hane, haall, hb⟩
      match a, hane with
      | ha :: ta, _ =>
        simp only [List.cons_append, List.cons.injEq] at hl
        obtain ⟨hch, hcs⟩ := hl
        subst hch
        subst hcs
        simp only [matchA, Bool.and_eq_true, Bool.or_eq_true]
        refine ⟨haall ch (by simp), ?_⟩
        cases ta with
        | nil =>
          left
          exact (matchAtPart_iff _).mpr ⟨rest, rfl, hb⟩
        | cons ha2 ta2 =>
          right
          refine ih.mpr ⟨ha2 :: ta2, rest, rfl, by simp, ?_, hb⟩
          intro x hx
          exact haall x (List.mem_cons_of_mem ch hx)

theorem testPattern_exists (l : List Char) :
    testPattern l = true ↔
      ∃ pre rest, l = pre ++ rest ∧ matchA rest = true := by
  induction l with
  | nil =>
    constructor
    · intro h
      simp [testPattern] at h
    · rintro ⟨pre, rest, hl, hA⟩
      obtain ⟨hpre, hrest⟩ := List.append_eq_nil.mp hl.symm
      subst hrest
      simp [matchA] at hA
  | cons ch cs ih =>
    constructor
    · intro h
      simp only [testPattern, Bool.or_eq_true] at h
      cases h with
      | inl hA => exact ⟨[], ch :: cs, rfl, hA⟩
      | inr ht =>
        obtain ⟨pre, rest, hcs, hA⟩ := ih.mp ht
        subst hcs
        exact ⟨ch :: pre, rest, rfl, hA⟩
    · rintro ⟨pre, rest, hl, hA⟩
      simp only [testPattern, Bool.or_eq_true]
      cases pre with
      | nil =>
        simp only [List.nil_append] at hl
        subst hl
        exact Or.inl hA
      | cons p ps =>
        simp only [List.cons_append, List.cons.injEq] at hl
        obtain ⟨hch, hcs⟩ := hl
        subst hch
        subst hcs
        exact Or.inr (ih.mpr ⟨ps, rest, rfl, hA⟩)

theorem emailRegexTest_iff (s : String) :
    emailRegexTest s = true ↔ EmailLike s := by
  unfold emailRegexTest EmailLike
  rw [testPattern_exists]
  constructor
  · rintro ⟨pre, rest, hl, hA⟩
    obtain ⟨a, rest2, hrest, hane, haall, hB⟩ := (matchA_iff rest).mp hA
    obtain ⟨b, rest3, hrest2, hbne, hball, hT⟩ := (matchB_iff rest2).mp hB
    obtain ⟨c, suf, hrest3, hcne, hcall⟩ := (matchTail_iff rest3).mp hT
    subst hrest3
    subst hrest2
    subst hrest
    exact ⟨pre, a, b, c, suf, by simpa [List.append_assoc] using hl,
      hane, hbne, hcne, haall, hball, hcall⟩
  · rintro ⟨pre, a, b, c, suf, hl, hane, hbne, hcne, haall, hball, hcall⟩
    refine ⟨pre, a ++ '@' :: (b ++ '.' :: (c ++ suf)), by simpa using hl, ?_⟩
    refine (matchA_iff _).mpr ⟨a, b ++ '.' :: (c ++ suf), rfl, hane, haall, ?_⟩
    refine (matchB_iff _).mpr ⟨b, c ++ suf, rfl, hbne, hball, ?_⟩
    exact (matchTail_iff _).mpr ⟨c, suf, rfl, hcne, hcall⟩

/-! Claim theorems. -/

/-- C1: for every token string T, when login(email, password) is invoked and
the provider call resolves with a response whose user.accessToken is T, then
after login completes the persistent-storage key idToken equals T, the
global store's token equals T, the login status has been refreshed, and
navigation to the /home route has been triggered. -/
theorem C1_login_success (prov : Provider) (email password T : String)
    (resp : SignInResponse) (s : AppState)
    (hcall : prov.signInUserEmailAndPass email password = Except.ok resp)
    (htok : resp.user.accessToken = T) :
    (loginHandler prov email password s).1.storageIdToken = some T ∧
    (loginHandler prov email password s).1.storeIdToken = some T ∧
    (loginHandler prov email password s).1.loginStatusCount =
      s.loginStatusCount + 1 ∧
    (loginHandler prov email password s).1.navigations =
      s.navigations ++ ["/home"] ∧
    (loginHandler prov email password s).2 = none := by
  simp [loginHandler, hcall, htok, navigate, dispatchSetLoginStatus,
    dispatchSetIdToken, storageSetIdToken]

/-- Witness for C1 at the provider that resolves with token T123. -/
theorem C1_login_success_witness :
    (loginHandler (okProvider "T123") "a@b.com" "secret1"
      initialState).1.storageIdToken = some "T123" ∧
    (loginHandler (okProvider "T123") "a@b.com" "secret1"
      initialState).1.storeIdToken = some "T123" ∧
    (loginHandler (okProvider "T123") "a@b.com" "secret1"
      initialState).1.loginStatusCount = initialState.loginStatusCount + 1 ∧
    (loginHandler (okProvider "T123") "a@b.com" "secret1"
      initialState).1.navigations = initialState.navigations ++ ["/home"] ∧
    (loginHandler (okProvider "T123") "a@b.com" "secret1"
      initialState).2 = none :=
  C1_login_success (okProvider "T123") "a@b.com" "secret1" "T123"
    ⟨⟨"T123"⟩⟩ initialState rfl rfl

/-- C2: whenever the validator produces a non-empty error mapping, the
submit handler returns without invoking any provider operation and without
changing the persisted token, the global token, or the mode flag. -/
theorem C2_invalid_submit_aborts (prov : Provider) (authData : FormFields)
    (s : AppState)
    (hinvalid : (validateFormErrors s.isLogin authData).isEmpty = false) :
    (handleSubmit prov authData s).signInCalls = s.signInCalls ∧
    (handleSubmit prov authData s).createUserCalls = s.createUserCalls ∧
    (handleSubmit prov authData s).googleSignInCalls = s.googleSignInCalls ∧
    (handleSubmit prov authData s).signOutCalls = s.signOutCalls ∧
    (handleSubmit prov authData s).storageIdToken = s.storageIdToken ∧
    (handleSubmit prov authData s).storeIdToken = s.storeIdToken ∧
    (handleSubmit prov authData s).isLogin = s.isLogin := by
  simp [handleSubmit, validateForm, hinvalid]

/-- Witness for C2 at an all-empty form, which is invalid in login mode. -/
theorem C2_invalid_submit_aborts_witness :
    (handleSubmit errProvider ⟨"", "", ""⟩ initialState).signInCalls =
      initialState.signInCalls ∧
    (handleSubmit errProvider ⟨"", "", ""⟩ initialState).createUserCalls =
      initialState.createUserCalls ∧
    (handleSubmit errProvider ⟨"", "", ""⟩ initialState).googleSignInCalls =
      initialState.googleSignInCalls ∧
    (handleSubmit errProvider ⟨"", "", ""⟩ initialState).signOutCalls =
      initialState.signOutCalls ∧
    (handleSubmit errProvider ⟨"", "", ""⟩ initialState).storageIdToken =
      initialState.storageIdToken ∧
    (handleSubmit errProvider ⟨"", "", ""⟩ initialState).storeIdToken =
      initialState.storeIdToken ∧
    (handleSubmit errProvider ⟨"", "", ""⟩ initialState).isLogin =
      initialState.isLogin :=
  C2_invalid_submit_aborts errProvider ⟨"", "", ""⟩ initialState (by decide)

/-- C3: an empty email yields the required-message, a non-empty email not
matching the pattern yields the invalid-message, and a non-empty matching
email yields no email error; the pattern is read declaratively as
EmailLike, proved equivalent to the code's regex test. -/
theorem C3_email_rules (isLogin : Bool) (f : FormFields) :
    (f.email = "" →
      (validateFormErrors isLogin f).email = some "Email is required.") ∧
    (f.email ≠ "" → ¬ EmailLike f.email →
      (validateFormErrors isLogin f).email = some "Email is invalid.") ∧
    (f.email ≠ "" → EmailLike f.email →
      (validateFormErrors isLogin f).email = none) := by
  refine ⟨?_, ?_, ?_⟩
  · intro h
    simp [validateFormErrors, h]
  · intro h hml
    have hre : emailRegexTest f.email = false := by
      cases hx : emailRegexTest f.email with
      | false => rfl
      | true => exact absurd ((emailRegexTest_iff f.email).mp hx) hml
    simp [validateFormErrors, h, hre]
  · intro h hml
    have hre : emailRegexTest f.email = true :=
      (emailRegexTest_iff f.email).mpr hml
    simp [validateFormErrors, h, hre]

/-- Witness for C3 at the empty email. -/
theorem C3_email_rules_witness :
    (validateFormErrors true ⟨"", "", ""⟩).email = some "Email is required." :=
  (C3_email_rules true ⟨"", "", ""⟩).1 rfl

/-- C4: the error mapping has a password entry exactly when the password's
length is below 6, the empty password included. -/
theorem C4_password_rules (isLogin : Bool) (f : FormFields) :
    (validateFormErrors isLogin f).password.isSome = true ↔
      f.password.length < 6 := by
  by_cases hp : f.password = ""
  · simp [validateFormErrors, hp]
  · by_cases hl : f.password.length < 6
    · simp [validateFormErrors, hp, hl]
    · simp [validateFormErrors, hp, hl]

/-- Witness for C4 at a five-character password. -/
theorem C4_password_rules_witness :
    (validateFormErrors true ⟨"", "", "12345"⟩).password.isSome = true :=
  (C4_password_rules true ⟨"", "", "12345"⟩).mpr (by decide)

/-- C5: in signup mode an empty name yields a name error; in login mode no
name error is produced for any name. -/
theorem C5_name_rules (f : FormFields) :
    (f.name = "" → (validateFormErrors false f).name =
      some "Full name is required for signup.") ∧
    (validateFormErrors true f).name = none := by
  constructor
  · intro h
    simp [validateFormErrors, h]
  · simp [validateFormErrors]

/-- Witness for C5 at the empty name in signup mode. -/
theorem C5_name_rules_witness :
    (validateFormErrors false ⟨"", "", ""⟩).name =
      some "Full name is required for signup." :=
  (C5_name_rules ⟨"", "", ""⟩).1 rfl

/-- C6: for every valid submission whose branch's provider calls all
succeed, the mode flag is true afterwards — in particular after a
successful signup from signup mode. -/
theorem C6_success_forces_login_mode (prov : Provider)
    (authData : FormFields) (s : AppState)
    (hvalid : (validateFormErrors s.isLogin authData).isEmpty = true)
    (hsign : ∃ r, prov.signInUserEmailAndPass authData.email
      authData.password = Except.ok r)
    (hcreate : s.isLogin = false → ∃ u, prov.createUserEmailAndPass
      authData.email authData.password = Except.ok u) :
    (handleSubmit prov authData s).isLogin = true := by
  obtain ⟨r, hr⟩ := hsign
  cases hmode : s.isLogin with
  | true =>
    simp only [hmode] at hvalid
    simp [handleSubmit, validateForm, hmode, hvalid, loginHandler, hr,
      dispatchSetIsLogin, navigate, dispatchSetLoginStatus,
      dispatchSetIdToken, storageSetIdToken]
  | false =>
    obtain ⟨u, hu⟩ := hcreate hmode
    simp only [hmode] at hvalid
    simp [handleSubmit, validateForm, hmode, hvalid, loginHandler, hr, hu,
      dispatchSetIsLogin, navigate, dispatchSetLoginStatus,
      dispatchSetIdToken, storageSetIdToken]

/-- Witness for C6 at a valid signup submission whose provider calls all
succeed, starting from signup mode. -/
theorem C6_success_forces_login_mode_witness :
    (handleSubmit (okProvider "T123") ⟨"Al", "a@b.com", "secret1"⟩
      { initialState with isLogin := false }).isLogin = true :=
  C6_success_forces_login_mode (okProvider "T123")
    ⟨"Al", "a@b.com", "secret1"⟩ { initialState with isLogin := false }
    (by decide) ⟨⟨⟨"T123"⟩⟩, rfl⟩ (fun _ => ⟨(), rfl⟩)

/-- C7 counterexample: running validateForm at a concrete state with an
invalid form changes the stored FormErrors mapping, so validation is not
free of side effects as claimed. -/
theorem C7_counterexample :
    (validateForm ⟨"", "", ""⟩ initialState).1.formErrors ≠
      initialState.formErrors := by
  decide

/-- C7 (amended): the validator's only side effect is replacing the stored
FormErrors with the freshly computed mapping; the mode flag, global token,
persisted token, login status and navigation history are unchanged, and
the returned verdict is valid iff the computed mapping is empty. -/
theorem C7_validator_frame (authData : FormFields) (s : AppState) :
    (validateForm authData s).1.formErrors =
      validateFormErrors s.isLogin authData ∧
    (validateForm authData s).1.isLogin = s.isLogin ∧
    (validateForm authData s).1.storeIdToken = s.storeIdToken ∧
    (validateForm authData s).1.storageIdToken = s.storageIdToken ∧
    (validateForm authData s).1.loginStatusCount = s.loginStatusCount ∧
    (validateForm authData s).1.navigations = s.navigations ∧
    (validateForm authData s).2 =
      (validateFormErrors s.isLogin authData).isEmpty := by
  simp [validateForm]

/-- C8: toggling the auth mode twice in sequence returns the mode flag to
its original value. -/
theorem C8_toggle_twice (s : AppState) :
    (toggleAuthMode (toggleAuthMode s)).isLogin = s.isLogin := by
  simp [toggleAuthMode, dispatchSetIsLogin]

/-- C9: if the provider sign-out call throws, the sign-out handler leaves
the persisted idToken entry, the global token and the login status exactly
as they were. -/
theorem C9_signout_atomic_on_failure (prov : Provider) (s : AppState)
    (e : String) (herr : prov.signOutUser = Except.error e) :
    (handleSignOut prov s).storageIdToken = s.storageIdToken ∧
    (handleSignOut prov s).storeIdToken = s.storeIdToken ∧
    (handleSignOut prov s).loginStatusCount = s.loginStatusCount ∧
    (handleSignOut prov s).isLogin = s.isLogin := by
  simp [handleSignOut, herr]

/-- Witness for C9 at a provider whose sign-out throws. -/
theorem C9_signout_atomic_on_failure_witness :
    (handleSignOut errProvider initialState).storageIdToken =
      initialState.storageIdToken ∧
    (handleSignOut errProvider initialState).storeIdToken =
      initialState.storeIdToken ∧
    (handleSignOut errProvider initialState).loginStatusCount =
      initialState.loginStatusCount ∧
    (handleSignOut errProvider initialState).isLogin =
      initialState.isLogin :=
  C9_signout_atomic_on_failure errProvider initialState "auth/error" rfl

/-- C10: the Google handler never navigates — the navigation history is
unchanged for every provider outcome — and on every successful result it
persists the token under idToken and publishes it and a refreshed status
to the global store. -/
theorem C10_google_no_navigation (prov : Provider) (s : AppState) :
    (loginWithGoogleHandler prov s).navigations = s.navigations ∧
    (∀ res, prov.signInWithGoogle = Except.ok res →
      (loginWithGoogleHandler prov s).storageIdToken = some res.token ∧
      (loginWithGoogleHandler prov s).storeIdToken = some res.token ∧
      (loginWithGoogleHandler prov s).loginStatusCount =
        s.loginStatusCount + 1) := by
  constructor
  · cases hg : prov.signInWithGoogle with
    | error e => simp [loginWithGoogleHandler, hg]
    | ok res =>
      simp [loginWithGoogleHandler, hg, dispatchSetLoginStatus,
        dispatchSetIdToken, storageSetIdToken]
  · intro res hg
    simp [loginWithGoogleHandler, hg, dispatchSetLoginStatus,
      dispatchSetIdToken, storageSetIdToken]

/-- Witness for C10 at a provider whose Google sign-in yields token T123. -/
theorem C10_google_no_navigation_witness :
    (loginWithGoogleHandler (okProvider "T123") initialState).storageIdToken =
      some "T123" :=
  ((C10_google_no_navigation (okProvider "T123") initialState).2
    ⟨"T123"⟩ rfl).1

end Auth
